import Mathlib

/-!
Shallow embedding of the reactive-flow core of the repository: the hot
multicast operator and its subscription handle (caf/flow/op/mcast.hpp), the
binary flow bridge (caf/net/binary/flow_bridge.hpp), and the promise/future
cell (whose implementation is modelled from the specification; only its test
suite is among the sampled sources). Error values are represented by opaque
numeric codes; a default-constructed `error` (no error) is `Option.none`.
-/

variable {T : Type} {V : Type}

/-- Modelled from the spec: the per-subscriber stream state shared between one
multicast operator and one subscription handle. The underlying
`ucast_sub_state` lives in caf/flow/op/ucast.hpp, which is outside the sampled
sources, so the fields follow the spec's data model: a non-negative `demand`
counter, an ordered buffer `buf` of undelivered items, a `running` flag that is
true while a delivery pass is scheduled, and the terminal status (`closed`
together with an optional error). -/
structure SubState (T : Type) where
  demand : Nat := 0
  buf : List T := []
  running : Bool := false
  closed : Bool := false
  err : Option Nat := none
deriving DecidableEq

/-- Modelled from the spec: pushing an item into a subscriber state appends it
to the buffer; delivery itself happens later via the subscription's scheduled
pass. -/
def SubState.push (s : SubState T) (item : T) : SubState T :=
  { s with buf := s.buf ++ [item] }

/-- Modelled from the spec: signalling normal completion marks the state
terminally closed without an error. -/
def SubState.close (s : SubState T) : SubState T :=
  { s with closed := true }

/-- Modelled from the spec: signalling a terminal failure marks the state
closed and records the error. -/
def SubState.abort (s : SubState T) (reason : Nat) : SubState T :=
  { s with closed := true, err := some reason }

/-- Modelled from the spec: a fresh subscriber state starts with zero demand,
an empty buffer, no scheduled delivery pass and no terminal status. -/
def freshState (T : Type) : SubState T :=
  {}

/-- Embeds `mcast_sub` (mcast.hpp, lines 30-65): a subscription handle holding
a pointer to its subscriber state; `none` models the null `intrusive_ptr`
left behind after `dispose` moved the state out. -/
structure McastSub (T : Type) where
  state_ : Option (SubState T)
deriving DecidableEq

/-- Embeds `mcast_sub::disposed` (line 41): true once the state handle is
null. -/
def McastSub.disposed (s : McastSub T) : Bool :=
  s.state_.isNone

/-- Embeds `mcast_sub::dispose` (lines 45-49): when live, the handle nulls its
state pointer synchronously in the caller's control flow
(`std::move(state_)`) and schedules the actual release (`do_dispose`) as a
deferred coordinator action; when already disposed it does nothing. The second
component counts the deferred release actions scheduled by the call. -/
def McastSub.dispose (s : McastSub T) : McastSub T × Nat :=
  match s.state_ with
  | some _ => (⟨none⟩, 1)
  | none => (s, 0)

/-- Embeds `mcast_sub::request` (lines 51-57): the body dereferences the state
handle with no null check (`state_->demand += n`), so the result is `none`
when the handle is already disposed. Otherwise it adds `n` to the demand and,
when no delivery pass is running, sets `running` and schedules exactly one
pass; the second component counts the passes scheduled by the call. -/
def McastSub.request (s : McastSub T) (n : Nat) : Option (McastSub T × Nat) :=
  match s.state_ with
  | none => none
  | some st =>
    let st2 := { st with demand := st.demand + n }
    if st2.running then some (⟨some st2⟩, 0)
    else some (⟨some { st2 with running := true }⟩, 1)

/-- Embeds the data of `mcast` (mcast.hpp, lines 69-222): the `closed_` flag,
the terminal error `err_` (a default-constructed `error`, i.e. no error, until
someone assigns it) and the subscriber states `states_` in subscription
order. -/
structure Mcast (T : Type) where
  closed_ : Bool := false
  err_ : Option Nat := none
  states_ : List (SubState T) := []
deriving DecidableEq

/-- Embeds `mcast::push_all` (lines 88-91): pushes the item to every
subscriber state, visiting the list in insertion order. -/
def Mcast.push_all (m : Mcast T) (item : T) : Mcast T :=
  { m with states_ := m.states_.map (fun s => s.push item) }

/-- Embeds `mcast::close` (lines 94-101): on the first terminal call it sets
the closed flag, signals completion to every current subscriber state and
clears the list; once `closed_` is set it is a no-op. The second component
records the states as they were signalled. -/
def Mcast.close (m : Mcast T) : Mcast T × List (SubState T) :=
  if m.closed_ then (m, [])
  else ({ m with closed_ := true, states_ := [] }, m.states_.map SubState.close)

/-- Embeds `mcast::abort` (lines 104-111): on the first terminal call it sets
the closed flag, signals the error to every current subscriber state and
clears the list; once `closed_` is set it is a no-op. Faithful to the source,
it never assigns `reason` to `err_`. The second component records the states
as they were signalled. -/
def Mcast.abort (m : Mcast T) (reason : Nat) : Mcast T × List (SubState T) :=
  if m.closed_ then (m, [])
  else ({ m with closed_ := true, states_ := [] },
        m.states_.map (fun s => s.abort reason))

/-- Embeds `mcast::max_demand` (lines 113-123): 0 when there are no subscriber
states, otherwise the demand of a maximal element found by
`std::max_element`. -/
def Mcast.max_demand (m : Mcast T) : Nat :=
  match m.states_.map (fun s => s.demand) with
  | [] => 0
  | d :: ds => ds.foldl Nat.max d

/-- The minimum demand that `mcast::min_demand` computes via
`std::min_element` in its non-empty branch (the value of `ptr->demand` on
line 133). -/
def Mcast.min_demand_computed (m : Mcast T) : Nat :=
  match m.states_.map (fun s => s.demand) with
  | [] => 0
  | d :: ds => ds.foldl Nat.min d

/-- Embeds `mcast::min_demand` (lines 125-135) as written: the empty branch
returns 0, but the non-empty branch evaluates `ptr->demand` as a discarded
statement and falls off the end of the non-void function without returning a
value; the absent return value is modelled as `none`. -/
def Mcast.min_demand (m : Mcast T) : Option Nat :=
  if m.states_.isEmpty then some 0 else none

/-- Embeds `mcast::max_buffered` (lines 137-147): 0 when there are no
subscriber states, otherwise the buffer size of a maximal element. -/
def Mcast.max_buffered (m : Mcast T) : Nat :=
  match m.states_.map (fun s => s.buf.length) with
  | [] => 0
  | d :: ds => ds.foldl Nat.max d

/-- The minimum buffer size that `mcast::min_buffered` computes via
`std::min_element` in its non-empty branch (the value of `ptr->buf.size()` on
line 157). -/
def Mcast.min_buffered_computed (m : Mcast T) : Nat :=
  match m.states_.map (fun s => s.buf.length) with
  | [] => 0
  | d :: ds => ds.foldl Nat.min d

/-- Embeds `mcast::min_buffered` (lines 149-159) as written: the empty branch
returns 0, but the non-empty branch evaluates `ptr->buf.size()` as a discarded
statement and falls off the end without returning a value, modelled as
`none`. -/
def Mcast.min_buffered (m : Mcast T) : Option Nat :=
  if m.states_.isEmpty then some 0 else none

/-- Embeds `mcast::has_observers` (lines 162-164). -/
def Mcast.has_observers (m : Mcast T) : Bool :=
  !m.states_.isEmpty

/-- Embeds `mcast::observer_count` (lines 167-169). -/
def Mcast.observer_count (m : Mcast T) : Nat :=
  m.states_.length

/-- Observable outcome of `mcast::subscribe` for the new observer: a live
subscription on a fresh state, an immediately-completed `op::empty` source, or
an immediate `on_error` with an inert (default-constructed) handle. -/
inductive SubscribeResult (T : Type) where
  | active
  | completedEmpty
  | erred (e : Nat)
deriving DecidableEq

/-- Embeds `mcast::subscribe` (lines 184-195): while open, `add_state` appends
a fresh subscriber state and the observer gets a live subscription; once
closed, the observer is given an `op::empty` source when `err_` holds no
error, and otherwise `err_` is signalled via `on_error` and an inert handle is
returned. -/
def Mcast.subscribe (m : Mcast T) : Mcast T × SubscribeResult T :=
  if m.closed_ then
    match m.err_ with
    | none => (m, SubscribeResult.completedEmpty)
    | some e => (m, SubscribeResult.erred e)
  else
    ({ m with states_ := m.states_ ++ [freshState T] }, SubscribeResult.active)

/-- Inputs that `flow_bridge::consume` reads from its collaborators: whether
the outbound flow sink handle `out_` still refers to a live (not
disposed/closed) sink, the conversion trait's decode function over the raw
bytes, and the free capacity the sink reports back from `push`. -/
structure ConsumeEnv (V : Type) where
  outValid : Bool
  decode : List Nat → Option V
  pushCapacity : Nat

/-- Observable effects of one `flow_bridge::consume` call: the returned
`ptrdiff_t`, the value pushed into the outbound flow sink (if any), and
whether `suspend_reading` was signalled to the transport before returning. -/
structure ConsumeResult (V : Type) where
  retval : Int
  pushed : Option V
  suspended : Bool
deriving DecidableEq

/-- Embeds `flow_bridge::consume` (flow_bridge.hpp, lines 53-62): a dead
outbound sink yields -1; a failed decode yields -1; otherwise the decoded
value is pushed into the sink, `suspend_reading` is signalled exactly when the
sink reports zero free capacity, and the byte count of the input span is
returned. -/
def consume (env : ConsumeEnv V) (buf : List Nat) : ConsumeResult V :=
  if !env.outValid then { retval := -1, pushed := none, suspended := false }
  else
    match env.decode buf with
    | none => { retval := -1, pushed := none, suspended := false }
    | some v =>
      { retval := (buf.length : Int), pushed := some v,
        suspended := env.pushCapacity == 0 }

/-- Modelled from the spec: the error taxonomy seen by a promise cell; the
broken-promise failure is a fixed, distinguished error value
(`sec::broken_promise` in the test suite). -/
inductive PErr where
  | brokenPromise
  | userError (code : Nat)
deriving DecidableEq

/-- Modelled from the spec: the single-assignment promise/future cell of
caf/async/promise.hpp, which is outside the sampled sources (only its test is
present). The cell tracks the count of live promise (producer) handles and its
resolution: `none` while unset, otherwise exactly one value or error. -/
structure Cell (T : Type) where
  producers : Nat
  result : Option (Sum T PErr)
deriving DecidableEq

/-- Modelled from the spec: destroying one promise handle. When the last
handle over a still-unset cell is destroyed, the cell auto-resolves to the
broken-promise failure; otherwise only the producer count drops. -/
def Cell.dropPromise (c : Cell T) : Cell T :=
  if c.producers == 1 && c.result.isNone then
    { producers := 0, result := some (Sum.inr PErr.brokenPromise) }
  else
    { c with producers := c.producers - 1 }

/-- Modelled from the spec: `future::pending()` is true while the cell is
unset. -/
def Cell.pending (c : Cell T) : Bool :=
  c.result.isNone

/-- Modelled from the spec: the events one future consumer attached to the
cell observes through the normal resolution path — nothing while the cell is
unset, and exactly the resolved outcome once it is resolved. -/
def Cell.deliverTo (c : Cell T) : List (Sum T PErr) :=
  match c.result with
  | none => []
  | some r => [r]

/-- Concrete operator for the extremal-query evaluation: one subscriber state
with demand 5 and two buffered items. -/
def mDiag : Mcast Nat :=
  { states_ := [{ demand := 5, buf := [10, 11] }] }

/-- Concrete open operator with one subscriber, used to evaluate the terminal
transitions. -/
def mOneSub : Mcast Nat :=
  { states_ := [freshState Nat] }

/-- Concrete consume environment: a live sink that decodes a byte list to its
length and reports plenty of free capacity. -/
def envOk : ConsumeEnv Nat :=
  { outValid := true, decode := fun b => some b.length, pushCapacity := 3 }

/-- Concrete consume environment: a live sink whose capacity is exhausted
right after the push. -/
def envZero : ConsumeEnv Nat :=
  { outValid := true, decode := fun b => some b.length, pushCapacity := 0 }

/-- C1: evaluation of the code at the failing input. Aborting a fresh open
mcast operator with the non-trivial error 7 and then subscribing yields the
immediately-completed empty source, not `on_error 7` with an inert handle:
`abort` never stores its reason in `err_`, so the late observer sees normal
completion, contradicting the claim. -/
theorem abort_then_subscribe_completes :
    ((Mcast.abort ({} : Mcast Nat) 7).fst.subscribe).snd
        = SubscribeResult.completedEmpty
      ∧ (SubscribeResult.completedEmpty : SubscribeResult Nat)
          ≠ SubscribeResult.erred 7 := by
  decide

/-- C2: evaluation of the code at the failing input, an operator with one
subscriber state of demand 5 and two buffered items. The max queries return
the extremal value, while the min queries compute 5 and 2 with
`std::min_element` but return no value at all. -/
theorem min_queries_return_nothing :
    Mcast.max_demand mDiag = 5 ∧ Mcast.max_buffered mDiag = 2
      ∧ Mcast.min_demand_computed mDiag = 5 ∧ Mcast.min_demand mDiag = none
      ∧ Mcast.min_buffered_computed mDiag = 2
      ∧ Mcast.min_buffered mDiag = none := by
  decide

/-- C3: evaluation of the code at the failing input. After `abort 7` fires
first on an operator with one subscriber, a later `close` and a later
`abort 9` are no-ops (so idempotence and mutual exclusivity do hold), but a
subsequent `subscribe` observes the empty completion rather than the first
terminal outcome `on_error 7`, because `abort` never records its reason in
`err_`. -/
theorem terminal_outcome_after_abort :
    (Mcast.close (mOneSub.abort 7).fst = ((mOneSub.abort 7).fst, [])
      ∧ Mcast.abort (mOneSub.abort 7).fst 9 = ((mOneSub.abort 7).fst, []))
      ∧ ((mOneSub.abort 7).fst.subscribe).snd = SubscribeResult.completedEmpty
      ∧ (SubscribeResult.completedEmpty : SubscribeResult Nat)
          ≠ SubscribeResult.erred 7 := by
  decide

/-- C4: on an open operator, `push_all` appends the item to every subscriber
state's buffer in insertion order, consumes no demand (it delivers nothing
itself), leaves the operator's flags alone, is a no-op when there are no
subscribers, and a subscriber added afterwards starts from a fresh state with
an empty buffer, so the item is never buffered for it. -/
theorem push_all_appends_everywhere (m : Mcast Nat) (x : Nat)
    (h : m.closed_ = false) :
    (m.push_all x).states_ = m.states_.map (fun s => s.push x)
      ∧ (m.push_all x).states_.map (fun s => s.buf)
          = m.states_.map (fun s => s.buf ++ [x])
      ∧ (m.push_all x).states_.map (fun s => s.demand)
          = m.states_.map (fun s => s.demand)
      ∧ (m.push_all x).closed_ = m.closed_
      ∧ (m.push_all x).err_ = m.err_
      ∧ (m.states_ = [] → m.push_all x = m)
      ∧ ((m.push_all x).subscribe).fst.states_
          = (m.push_all x).states_ ++ [freshState Nat]
      ∧ (freshState Nat).buf = [] := by
  refine ⟨rfl, ?_, ?_, rfl, rfl, ?_, ?_, rfl⟩
  · simp [Mcast.push_all, SubState.push]
  · simp [Mcast.push_all, SubState.push]
  · intro hs
    cases m
    simp_all [Mcast.push_all]
  · simp [Mcast.subscribe, Mcast.push_all, h]

/-- C4 witness: pushing 3 into an open operator with one fresh subscriber
leaves that subscriber's buffer holding exactly the item 3. -/
theorem push_all_appends_everywhere_witness :
    (Mcast.push_all ({ states_ := [freshState Nat] } : Mcast Nat) 3).states_.map
        (fun s => s.buf) = [[3]] := by
  have h := push_all_appends_everywhere { states_ := [freshState Nat] } 3 rfl
  exact h.2.1.trans (by decide)

/-- C5: on a live subscription, `request n` adds exactly `n` to the demand
counter, leaves `running` set, and schedules exactly one delivery pass when
none was running (and none otherwise); with `n = 0` the demand is left
unchanged. -/
theorem request_adds_demand (st : SubState Nat) (n : Nat) :
    McastSub.request (⟨some st⟩ : McastSub Nat) n
        = some (⟨some { st with demand := st.demand + n, running := true }⟩,
                if st.running then 0 else 1)
      ∧ st.demand + 0 = st.demand := by
  cases hr : st.running <;> simp [McastSub.request, hr]

/-- C5 witness: requesting 2 items on a live subscription over a fresh state
yields demand 2 and schedules one delivery pass. -/
theorem request_adds_demand_witness :
    McastSub.request (⟨some (freshState Nat)⟩ : McastSub Nat) 2
      = some (⟨some { freshState Nat with demand := 2, running := true }⟩, 1) := by
  have h := (request_adds_demand (freshState Nat) 2).1
  simpa [freshState] using h

/-- C6: `consume` returns -1 and pushes nothing when the outbound sink is dead
or the trait fails to decode the bytes; otherwise it pushes the decoded value
into the sink and returns the size of the input span. -/
theorem consume_retval (env : ConsumeEnv Nat) (buf : List Nat) :
    ((env.outValid = false ∨ env.decode buf = none) →
        (consume env buf).retval = -1 ∧ (consume env buf).pushed = none)
      ∧ (∀ v, env.outValid = true → env.decode buf = some v →
          (consume env buf).retval = (buf.length : Int)
            ∧ (consume env buf).pushed = some v) := by
  constructor
  · rintro (h | h)
    · simp [consume, h]
    · cases hv : env.outValid <;> simp [consume, hv, h]
  · intro v h1 h2
    simp [consume, h1, h2]

/-- C6 witness: with a live sink that decodes a byte list to its length,
consuming three bytes returns 3 and pushes the decoded value 3. -/
theorem consume_retval_witness :
    (consume envOk [1, 2, 3]).retval = (([1, 2, 3] : List Nat).length : Int)
      ∧ (consume envOk [1, 2, 3]).pushed = some 3 := by
  have h := (consume_retval envOk [1, 2, 3]).2 3 rfl rfl
  exact ⟨h.1, h.2⟩

/-- C7: on a successful `consume`, the transport-suspend signal is issued
before returning exactly when the sink reports zero free capacity after
accepting the pushed value. -/
theorem consume_backpressure (env : ConsumeEnv Nat) (buf : List Nat) (v : Nat)
    (h1 : env.outValid = true) (h2 : env.decode buf = some v) :
    (consume env buf).suspended = (env.pushCapacity == 0) := by
  simp [consume, h1, h2]

/-- C7 witness: consuming one byte through a sink with exhausted capacity
signals the suspend, and through a sink with free capacity it does not. -/
theorem consume_backpressure_witness :
    (consume envZero [5]).suspended = true
      ∧ (consume envOk [5]).suspended = false := by
  have h0 := consume_backpressure envZero [5] 1 rfl rfl
  have h3 := consume_backpressure envOk [5] 1 rfl rfl
  exact ⟨h0.trans (by decide), h3.trans (by decide)⟩

/-- C8: the first `close` call marks the operator closed, signals completion
(and no error) to every current subscriber state, and clears the subscriber
list; immediately afterwards `has_observers` is false and `observer_count` is
zero. -/
theorem close_first_call (m : Mcast Nat) (h : m.closed_ = false) :
    (m.close).fst.closed_ = true
      ∧ (m.close).snd = m.states_.map SubState.close
      ∧ (∀ s, s ∈ (m.close).snd → s.closed = true)
      ∧ (m.close).fst.states_ = []
      ∧ (m.close).fst.has_observers = false
      ∧ (m.close).fst.observer_count = 0 := by
  refine ⟨?_, ?_, ?_, ?_, ?_, ?_⟩ <;>
    simp [Mcast.close, h, Mcast.has_observers, Mcast.observer_count,
      SubState.close]

/-- C8 witness: closing an open operator with one subscriber leaves it closed
with no observers, and the signalled state is marked completed. -/
theorem close_first_call_witness :
    (Mcast.close mOneSub).fst.closed_ = true
      ∧ (Mcast.close mOneSub).fst.observer_count = 0 := by
  have h := close_first_call mOneSub rfl
  exact ⟨h.1, h.2.2.2.2.2⟩

/-- Destroying fewer promise handles than exist leaves the cell unset, only
dropping the producer count. -/
theorem dropPromise_iterate (k : Nat) : ∀ N : Nat, k < N →
    (Cell.dropPromise)^[k] (⟨N, none⟩ : Cell Nat) = ⟨N - k, none⟩ := by
  induction k with
  | zero => intro N _; simp
  | succ k ih =>
    intro N hk
    have hne : (N == 1) = false := by
      simp only [beq_eq_false_iff_ne, ne_eq]
      omega
    have h1 : Cell.dropPromise (⟨N, none⟩ : Cell Nat) = ⟨N - 1, none⟩ := by
      simp [Cell.dropPromise, hne]
    rw [Function.iterate_succ_apply, h1, ih (N - 1) (by omega)]
    congr 1
    omega

/-- C9: destroying all N ≥ 1 promise handles over a still-unset cell, without
ever setting a value or an error, resolves the cell to the broken-promise
failure: `pending` becomes false and every attached future consumer observes
exactly one broken-promise error and never a value. -/
theorem broken_promise_invariant (N : Nat) (h : 1 ≤ N) :
    Cell.pending ((Cell.dropPromise)^[N] (⟨N, none⟩ : Cell Nat)) = false
      ∧ Cell.deliverTo ((Cell.dropPromise)^[N] (⟨N, none⟩ : Cell Nat))
          = [Sum.inr PErr.brokenPromise] := by
  obtain ⟨M, rfl⟩ : ∃ M, N = M + 1 := ⟨N - 1, by omega⟩
  have hA : (Cell.dropPromise)^[M] (⟨M + 1, none⟩ : Cell Nat)
      = ⟨M + 1 - M, none⟩ := dropPromise_iterate M (M + 1) (by omega)
  have hA1 : (Cell.dropPromise)^[M] (⟨M + 1, none⟩ : Cell Nat) = ⟨1, none⟩ := by
    rw [hA]
    congr 1
    omega
  rw [Function.iterate_succ_apply', hA1]
  constructor <;> decide

/-- C9 witness: three copies of a promise over one unset cell, all destroyed,
leave a non-pending cell delivering one broken-promise error. -/
theorem broken_promise_invariant_witness :
    Cell.pending ((Cell.dropPromise)^[3] (⟨3, none⟩ : Cell Nat)) = false
      ∧ Cell.deliverTo ((Cell.dropPromise)^[3] (⟨3, none⟩ : Cell Nat))
          = [Sum.inr PErr.brokenPromise] :=
  broken_promise_invariant 3 (by omega)

/-- C10: disposing a subscription nulls the state handle synchronously, so
`disposed` reports true immediately while the actual release is deferred as
exactly one scheduled coordinator action; and `request` has no guard: its
result is defined exactly on subscriptions that are not disposed, and after a
`dispose` it dereferences the null handle (modelled as `none`). -/
theorem dispose_then_request_unsafe (s : McastSub Nat) (n : Nat) :
    McastSub.disposed (McastSub.dispose s).fst = true
      ∧ ((McastSub.dispose s).snd = if McastSub.disposed s then 0 else 1)
      ∧ ((McastSub.request s n).isSome = true ↔ McastSub.disposed s = false)
      ∧ McastSub.request (McastSub.dispose s).fst n = none := by
  rcases s with ⟨st⟩
  cases st with
  | none => simp [McastSub.dispose, McastSub.disposed, McastSub.request]
  | some st =>
    cases hr : st.running <;>
      simp [McastSub.dispose, McastSub.disposed, McastSub.request, hr]

/-- C10 witness: disposing a live subscription makes `disposed` true at once,
and requesting on the disposed handle dereferences the null state. -/
theorem dispose_then_request_unsafe_witness :
    McastSub.disposed
        (McastSub.dispose (⟨some (freshState Nat)⟩ : McastSub Nat)).fst = true
      ∧ McastSub.request
          (McastSub.dispose (⟨some (freshState Nat)⟩ : McastSub Nat)).fst 1
          = none := by
  have h := dispose_then_request_unsafe (⟨some (freshState Nat)⟩ : McastSub Nat) 1
  exact ⟨h.1, h.2.2.2⟩
